import Mathlib

/-!
# Clarifi website change-monitoring client: shallow embedding

This development embeds the client-side state and the operations of the
Clarifi monitoring engine's frontend, and proves the spec's claims about
them.

Embedded code:
* `src/frontend/src/store/appStore.js` — the zustand application store
  (monitors, notifications, summaries slices, their pagination and the
  CRUD actions on them);
* `src/frontend/src/hooks/useWebSocket.jsx` — the WebSocket hook
  (`handleMessage` for `monitor_update`, `sendMessage`, the
  reconnect-on-close / clear-on-open / cancel-on-disconnect timer logic);
* `src/frontend/src/pages/Monitors.jsx` — the creation-form interval
  field (`min="60" max="86400"`, no `required`);
* the notification message preview of the Notifications page.

JavaScript strings are modelled as Lean `String`, JS numbers used as
counters as `Int` (the store only adds 1 and takes `Math.max(0, · - 1)`),
nullable fields as `Option`, and the clock (`new Date().toISOString()`)
is passed explicitly as a `String` argument to the actions that read it.
The backend Change Detector is not part of the sources; it is modelled
from the spec where a claim needs it.
-/

namespace Clarifi

/-! ## Data model (from `src/frontend/src/types/index.js`) -/

/-- Extraction strategy of a monitor (`monitor_type` in the source;
`content | price | selector | item_search`). -/
inductive MonitorType
  | content
  | price
  | selector
  | itemSearch
deriving DecidableEq, Repr

/-- Notification type (`'info'|'warning'|'error'|'success'`). -/
inductive NotificationType
  | info
  | warning
  | error
  | success
deriving DecidableEq, Repr

/-- Notification priority (`'low'|'normal'|'high'|'urgent'`). -/
inductive Priority
  | low
  | normal
  | high
  | urgent
deriving DecidableEq, Repr

/-- The `Monitor` entity as the frontend stores it
(`types/index.js`, `@typedef Monitor`).  The opaque `metadata` object is
kept as an uninterpreted optional blob. -/
structure Monitor where
  id : String
  name : String
  url : String
  monitor_type : MonitorType
  css_selector : Option String
  xpath_selector : Option String
  current_value : Option String
  previous_value : Option String
  check_interval : Int
  is_active : Bool
  notification_enabled : Bool
  last_checked : Option String
  last_changed : Option String
  created_at : String
  updated_at : Option String
  metadata : Option String
deriving DecidableEq, Repr

/-- The `Notification` entity (`types/index.js`, `@typedef Notification`).
The opaque structured payload `data` is kept as an uninterpreted optional
blob. -/
structure Notification where
  id : String
  title : String
  message : String
  notification_type : NotificationType
  source : Option String
  source_type : Option String
  is_read : Bool
  is_sent : Bool
  priority : Priority
  created_at : String
  read_at : Option String
  sent_at : Option String
  data : Option String
deriving DecidableEq, Repr

/-- The `Summary` entity (`types/index.js`, `@typedef Summary`). -/
structure Summary where
  id : String
  url : String
  title : Option String
  summary_text : String
  question : Option String
  response : Option String
  ai_provider : String
  processing_time : Option Int
  created_at : String
deriving DecidableEq, Repr

/-! ## Store state (from `src/frontend/src/store/appStore.js`) -/

/-- Pagination record kept in each store slice
(`{ page, per_page, total, has_more }`). -/
structure Pagination where
  page : Int
  per_page : Int
  total : Int
  has_more : Bool
deriving DecidableEq, Repr

/-- A toast shown by `showToast` (`{ type, title, message }`). -/
structure Toast where
  ttype : String
  title : String
  message : String
deriving DecidableEq, Repr

/-- The `ui` slice of the store. -/
structure UIState where
  sidebarOpen : Bool
  currentUrl : String
  loading : Bool
  error : Option String
  toast : Option Toast
deriving DecidableEq, Repr

/-- The `summaries` slice: items plus loading/error/pagination. -/
structure SummariesSlice where
  items : List Summary
  loading : Bool
  error : Option String
  pagination : Pagination
deriving DecidableEq, Repr

/-- The `monitors` slice: items plus loading/error/pagination. -/
structure MonitorsSlice where
  items : List Monitor
  loading : Bool
  error : Option String
  pagination : Pagination
deriving DecidableEq, Repr

/-- The `notifications` slice: items plus loading/error/pagination. -/
structure NotificationsSlice where
  items : List Notification
  loading : Bool
  error : Option String
  pagination : Pagination
deriving DecidableEq, Repr

/-- The `stats` slice (opaque stat payloads). -/
structure StatsState where
  summaries : Option String
  monitors : Option String
  notifications : Option String
  loading : Bool
  error : Option String
deriving DecidableEq, Repr

/-- The whole zustand store state created in `appStore.js`. -/
structure AppState where
  ui : UIState
  summaries : SummariesSlice
  monitors : MonitorsSlice
  notifications : NotificationsSlice
  currentSummary : Option Summary
  stats : StatsState
deriving DecidableEq, Repr

/-- Initial pagination `{ page: 1, per_page: 20, total: 0, has_more: false }`. -/
def initPagination : Pagination :=
  { page := 1, per_page := 20, total := 0, has_more := false }

/-- The store's initial state. -/
def initAppState : AppState :=
  { ui := { sidebarOpen := false, currentUrl := "", loading := false,
            error := none, toast := none }
    summaries := { items := [], loading := false, error := none,
                   pagination := initPagination }
    monitors := { items := [], loading := false, error := none,
                  pagination := initPagination }
    notifications := { items := [], loading := false, error := none,
                       pagination := initPagination }
    currentSummary := none
    stats := { summaries := none, monitors := none, notifications := none,
               loading := false, error := none } }

/-! ## Store actions

Each zustand action `set((state) => ({ slice: { ...state.slice, ... } }))`
becomes a function `AppState → AppState` that rebuilds the one slice it
touches and carries every other field of the state across unchanged,
exactly as the object spread does. -/

/-- A JS update object passed to `updateMonitor(id, updates)`: the spread
`{ ...monitor, ...updates }` overrides exactly the keys present in
`updates`, so the patch holds one `Option` per monitor field (`none` =
key absent). -/
structure MonitorPatch where
  id : Option String := none
  name : Option String := none
  url : Option String := none
  monitor_type : Option MonitorType := none
  css_selector : Option (Option String) := none
  xpath_selector : Option (Option String) := none
  current_value : Option (Option String) := none
  previous_value : Option (Option String) := none
  check_interval : Option Int := none
  is_active : Option Bool := none
  notification_enabled : Option Bool := none
  last_checked : Option (Option String) := none
  last_changed : Option (Option String) := none
  created_at : Option String := none
  updated_at : Option (Option String) := none
  metadata : Option (Option String) := none
deriving DecidableEq, Repr

/-- The spread `{ ...monitor, ...updates }`. -/
def MonitorPatch.applyTo (p : MonitorPatch) (m : Monitor) : Monitor :=
  { id := p.id.getD m.id
    name := p.name.getD m.name
    url := p.url.getD m.url
    monitor_type := p.monitor_type.getD m.monitor_type
    css_selector := p.css_selector.getD m.css_selector
    xpath_selector := p.xpath_selector.getD m.xpath_selector
    current_value := p.current_value.getD m.current_value
    previous_value := p.previous_value.getD m.previous_value
    check_interval := p.check_interval.getD m.check_interval
    is_active := p.is_active.getD m.is_active
    notification_enabled := p.notification_enabled.getD m.notification_enabled
    last_checked := p.last_checked.getD m.last_checked
    last_changed := p.last_changed.getD m.last_changed
    created_at := p.created_at.getD m.created_at
    updated_at := p.updated_at.getD m.updated_at
    metadata := p.metadata.getD m.metadata }

/-- Action `addSummary(summary)`: prepends the item and increments the total. -/
def addSummary (x : Summary) (s : AppState) : AppState :=
  { s with summaries :=
      { s.summaries with
        items := x :: s.summaries.items
        pagination :=
          { s.summaries.pagination with
            total := s.summaries.pagination.total + 1 } } }

/-- Action `removeSummary(id)`: filters the item out and decrements the total,
clamped at zero by `Math.max(0, total - 1)`. -/
def removeSummary (id : String) (s : AppState) : AppState :=
  { s with summaries :=
      { s.summaries with
        items := s.summaries.items.filter (fun x => x.id != id)
        pagination :=
          { s.summaries.pagination with
            total := max 0 (s.summaries.pagination.total - 1) } } }

/-- Action `addMonitor(monitor)`: prepends the item and increments the total. -/
def addMonitor (m : Monitor) (s : AppState) : AppState :=
  { s with monitors :=
      { s.monitors with
        items := m :: s.monitors.items
        pagination :=
          { s.monitors.pagination with
            total := s.monitors.pagination.total + 1 } } }

/-- Action `updateMonitor(id, updates)`: maps over the items, merging `updates`
over the one monitor whose id matches; pagination/loading/error are
carried across by the spread. -/
def updateMonitor (id : String) (p : MonitorPatch) (s : AppState) : AppState :=
  { s with monitors :=
      { s.monitors with
        items := s.monitors.items.map
          (fun m => if m.id == id then p.applyTo m else m) } }

/-- Action `removeMonitor(id)`: filters the item out and decrements the total,
clamped at zero by `Math.max(0, total - 1)`. -/
def removeMonitor (id : String) (s : AppState) : AppState :=
  { s with monitors :=
      { s.monitors with
        items := s.monitors.items.filter (fun m => m.id != id)
        pagination :=
          { s.monitors.pagination with
            total := max 0 (s.monitors.pagination.total - 1) } } }

/-- Action `addNotification(notification)`: prepends the item and increments the
total. -/
def addNotification (n : Notification) (s : AppState) : AppState :=
  { s with notifications :=
      { s.notifications with
        items := n :: s.notifications.items
        pagination :=
          { s.notifications.pagination with
            total := s.notifications.pagination.total + 1 } } }

/-- Action `markNotificationRead(id)`: maps over the items, setting
`is_read: true, read_at: new Date().toISOString()` on the one whose id
matches; `now` is the clock reading. -/
def markNotificationRead (id now : String) (s : AppState) : AppState :=
  { s with notifications :=
      { s.notifications with
        items := s.notifications.items.map
          (fun n => if n.id == id
                    then { n with is_read := true, read_at := some now }
                    else n) } }

/-- Action `markAllNotificationsRead()`: sets `is_read: true` and a fresh
`read_at` on every item; `now` is the clock reading. -/
def markAllNotificationsRead (now : String) (s : AppState) : AppState :=
  { s with notifications :=
      { s.notifications with
        items := s.notifications.items.map
          (fun n => { n with is_read := true, read_at := some now }) } }

/-- Action `removeNotification(id)`: filters the item out and decrements the
total, clamped at zero by `Math.max(0, total - 1)`. -/
def removeNotification (id : String) (s : AppState) : AppState :=
  { s with notifications :=
      { s.notifications with
        items := s.notifications.items.filter (fun n => n.id != id)
        pagination :=
          { s.notifications.pagination with
            total := max 0 (s.notifications.pagination.total - 1) } } }

/-! ## WebSocket hook (from `src/frontend/src/hooks/useWebSocket.jsx`) -/

/-- The `monitor_update` real-time message payload, as `handleMessage`
reads it: `{ monitor_id, current_value, last_checked, has_changed }`. -/
structure MonitorUpdateMsg where
  monitor_id : String
  current_value : String
  last_checked : String
  has_changed : Bool
deriving DecidableEq, Repr

/-- The `case 'monitor_update'` branch of `handleMessage`:

```
updateMonitor(monitorUpdate.monitor_id, {
  current_value: monitorUpdate.current_value,
  last_checked: monitorUpdate.last_checked,
  ...(monitorUpdate.has_changed && \x7b last_changed: monitorUpdate.last_checked \x7d)
})
```

The conditional spread contributes the `last_changed` key exactly when
`has_changed` is true. -/
def handleMonitorUpdate (msg : MonitorUpdateMsg) (s : AppState) : AppState :=
  updateMonitor msg.monitor_id
    { current_value := some (some msg.current_value)
      last_checked := some (some msg.last_checked)
      last_changed :=
        if msg.has_changed then some (some msg.last_checked) else none }
    s

/-! ### JSON serialization (model of the `JSON.stringify` collaborator
used by `sendMessage`) -/

/-- A JSON value: the shape of messages passed to `sendMessage`. -/
inductive Json
  | null
  | bool (b : Bool)
  | num (n : Int)
  | str (s : String)
  | arr (xs : List Json)
  | obj (fields : List (String × Json))

/-- An opening brace character, for building JSON text. -/
def lbrace : String := String.singleton (Char.ofNat 123)

/-- A closing brace character, for building JSON text. -/
def rbrace : String := String.singleton (Char.ofNat 125)

/-- Escape one character for a JSON string literal. -/
def jsonEscapeChar (c : Char) : String :=
  if c = '"' || c = '\\' then String.singleton '\\' ++ String.singleton c
  else String.singleton c

/-- Escape a string for a JSON string literal. -/
def jsonEscape (s : String) : String :=
  String.join (s.toList.map jsonEscapeChar)

/-- Serialization `JSON.stringify` on a `Json` value. -/
def Json.stringify : Json → String
  | .null => "null"
  | .bool true => "true"
  | .bool false => "false"
  | .num n => toString n
  | .str s => "\"" ++ jsonEscape s ++ "\""
  | .arr xs =>
      "[" ++ String.intercalate ","
        (xs.attach.map (fun x => x.1.stringify)) ++ "]"
  | .obj fields =>
      lbrace ++ String.intercalate ","
        (fields.attach.map
          (fun kv => "\"" ++ jsonEscape kv.1.1 ++ "\":" ++ kv.1.2.stringify))
        ++ rbrace
decreasing_by
  · have h := List.sizeOf_lt_of_mem x.2
    simp only [Json.arr.sizeOf_spec]
    omega
  · have h := List.sizeOf_lt_of_mem kv.2
    obtain ⟨⟨k, v⟩, hmem⟩ := kv
    simp only [Prod.mk.sizeOf_spec] at h
    simp only [Json.obj.sizeOf_spec]
    omega

/-! ### `sendMessage` -/

/-- Constant `WebSocket.CONNECTING`. -/
def wsCONNECTING : Nat := 0

/-- Constant `WebSocket.OPEN`. -/
def wsOPEN : Nat := 1

/-- Constant `WebSocket.CLOSING`. -/
def wsCLOSING : Nat := 2

/-- Constant `WebSocket.CLOSED`. -/
def wsCLOSED : Nat := 3

/-- The observable part of a browser `WebSocket` that `sendMessage`
consults. -/
structure WSocket where
  readyState : Nat
deriving DecidableEq, Repr

/-- Outcome of `sendMessage`: either a serialized frame handed to
`ws.send`, or the silent drop (`console.warn` and return — the function
never throws). -/
inductive SendResult
  | sent (frame : String)
  | droppedNotConnected
deriving DecidableEq, Repr

/-- Function `sendMessage(message)`:

```
if (wsRef.current && wsRef.current.readyState === WebSocket.OPEN) \x7b
  wsRef.current.send(JSON.stringify(message));
\x7d else \x7b
  console.warn('WebSocket is not connected');
\x7d
```
-/
def sendMessage (ws : Option WSocket) (message : Json) : SendResult :=
  match ws with
  | some w =>
      if w.readyState == wsOPEN then .sent message.stringify
      else .droppedNotConnected
  | none => .droppedNotConnected

/-! ### Reconnection lifecycle

The hook keeps one socket in `wsRef` and one pending reconnection
timeout id in `reconnectTimeoutRef`.  We model the client as a state
machine: `sock` is the phase of the socket held by `wsRef` (`none` when
the ref is null), `timers` is the set of live (scheduled, not yet fired,
not cancelled) reconnection timeouts created by `setTimeout`, each with
its delay in milliseconds, and `timerRef` is the timeout id stored in
`reconnectTimeoutRef` (it may point at an already-fired timer, since the
`setTimeout` callback does not null the ref).  Crucially, `disconnect()`
calls `wsRef.current.close()` and only then nulls the ref: the `onclose`
handler stays attached to that socket object, so its close event is
still delivered afterwards and runs the handler body.  `pendingClose`
counts such detached, closing sockets whose close event has not yet
arrived.  Event handlers become transitions on this state. -/

/-- Phase of the socket held by `wsRef`. -/
inductive SockPhase
  | connectingP
  | openP
  | closedP
deriving DecidableEq, Repr

/-- A live reconnection timeout: its `setTimeout` id and delay (ms). -/
structure ReconnTimer where
  tid : Nat
  delayMs : Nat
deriving DecidableEq, Repr

/-- The client state of `useWebSocket`.  `pendingClose` counts sockets
closed by `disconnect()` whose still-attached `onclose` has not yet been
delivered. -/
structure WSClient where
  sock : Option SockPhase
  pendingClose : Nat
  timers : List ReconnTimer
  timerRef : Option Nat
  nextId : Nat
  isConnected : Bool
  connectionStatus : String
deriving DecidableEq, Repr

/-- The fixed reconnection delay: `setTimeout(() => connect(), 3000)`. -/
def reconnectDelayMs : Nat := 3000

/-- Hook state before `connect()` has run. -/
def initClient : WSClient :=
  { sock := none, pendingClose := 0, timers := [], timerRef := none,
    nextId := 0, isConnected := false,
    connectionStatus := "disconnected" }

/-- Function `connect()`: sets status to `'connecting'` and stores a fresh socket
in `wsRef`. -/
def connectClient (s : WSClient) : WSClient :=
  { s with sock := some .connectingP, connectionStatus := "connecting" }

/-- The shared pattern
`if (reconnectTimeoutRef.current) \x7b clearTimeout(...); ... = null \x7d`:
cancels the ref'd timeout (a no-op if it already fired) and nulls the
ref. -/
def clearReconnectTimer (s : WSClient) : WSClient :=
  match s.timerRef with
  | some t =>
      { s with timers := s.timers.filter (fun tm => tm.tid != t),
               timerRef := none }
  | none => s

/-- Handler `onopen`: marks the client connected and clears any pending
reconnection timeout. -/
def onOpen (s : WSClient) : WSClient :=
  let s' := clearReconnectTimer s
  { s' with sock := some .openP, isConnected := true,
            connectionStatus := "connected" }

/-- Handler `onclose`: marks the client disconnected and schedules one
reconnection attempt after `reconnectDelayMs`, storing the new timeout
id in the ref (without cancelling a previous one — the ref is simply
overwritten). -/
def onClose (s : WSClient) : WSClient :=
  { s with sock := some .closedP, isConnected := false,
           connectionStatus := "disconnected",
           timers := ⟨s.nextId, reconnectDelayMs⟩ :: s.timers,
           timerRef := some s.nextId,
           nextId := s.nextId + 1 }

/-- The close event of a socket that `disconnect()` already closed and
detached from `wsRef`: the still-attached `onclose` handler body runs —
it marks the client disconnected and schedules one reconnection attempt
after `reconnectDelayMs`, overwriting the ref with the new timeout id —
while `wsRef` itself (the current socket, if any) is untouched. -/
def detachedClose (s : WSClient) : WSClient :=
  { s with pendingClose := s.pendingClose - 1,
           isConnected := false, connectionStatus := "disconnected",
           timers := ⟨s.nextId, reconnectDelayMs⟩ :: s.timers,
           timerRef := some s.nextId,
           nextId := s.nextId + 1 }

/-- Handler `onerror`: marks the client disconnected; touches no timer. -/
def onError (s : WSClient) : WSClient :=
  { s with isConnected := false, connectionStatus := "disconnected" }

/-- A scheduled reconnection timeout fires: the timer is consumed and
its callback runs `connect()` (the ref is left stale). -/
def fireTimer (t : Nat) (s : WSClient) : WSClient :=
  connectClient { s with timers := s.timers.filter (fun tm => tm.tid != t) }

/-- Function `disconnect()`: cancels the pending reconnection timeout held in
the ref, calls `close()` on the held socket and nulls `wsRef`, and marks
the client disconnected.  Closing a socket that is connecting or open
leaves its close event pending delivery (the `onclose` handler stays
attached); a socket whose close event already fired produces no new
one. -/
def disconnectClient (s : WSClient) : WSClient :=
  let s' := clearReconnectTimer s
  { s' with sock := none,
            pendingClose :=
              if s.sock = some .connectingP ∨ s.sock = some .openP
              then s.pendingClose + 1 else s.pendingClose,
            isConnected := false,
            connectionStatus := "disconnected" }

/-- One event of the hook's lifecycle.  `mount` is the `useEffect`
`connect()` call, which only happens when no socket is held (initial
mount, or remount after the cleanup `disconnect()`); the browser fires
`opened` only on a connecting socket and `closed` only on the held
socket while it is connecting or open; `closeDetached` is the close
event, still delivered to the attached `onclose` handler, of a socket
that `disconnect()` closed and dropped from `wsRef`; `fired` requires
the timeout to still be live. -/
inductive WSStep : WSClient → WSClient → Prop
  | mount (s : WSClient) :
      s.sock = none → WSStep s (connectClient s)
  | opened (s : WSClient) :
      s.sock = some .connectingP → WSStep s (onOpen s)
  | closed (s : WSClient) :
      s.sock = some .connectingP ∨ s.sock = some .openP →
      WSStep s (onClose s)
  | closeDetached (s : WSClient) :
      0 < s.pendingClose → WSStep s (detachedClose s)
  | errored (s : WSClient) : WSStep s (onError s)
  | fired (s : WSClient) (t : Nat) :
      (∃ tm ∈ s.timers, tm.tid = t) → WSStep s (fireTimer t s)
  | disc (s : WSClient) : WSStep s (disconnectClient s)

/-- States the hook can reach from its initial state. -/
inductive WSReachable : WSClient → Prop
  | init : WSReachable initClient
  | step {s s' : WSClient} :
      WSReachable s → WSStep s s' → WSReachable s'

/-- Lifecycle invariant: every live reconnection timer carries the
fixed 3 s delay and a timeout id below the id counter (so a freshly
created timeout is distinct from every live one). -/
def WSInv (s : WSClient) : Prop :=
  ∀ tm ∈ s.timers, tm.delayMs = reconnectDelayMs ∧ tm.tid < s.nextId

/-- The client after mount, a successful open, and an explicit
`disconnect()`: no timer is live, but the close event of the socket
`disconnect()` closed is still pending delivery. -/
def discState : WSClient :=
  disconnectClient (onOpen (connectClient initClient))

/-- The client after that pending close event arrives: its `onclose`
handler has scheduled a fresh reconnection timeout. -/
def discClosedState : WSClient := detachedClose discState

/-! ## Notification list preview (Notifications page) -/

/-- JS `String.prototype.substring(a, b)` on the character sequence. -/
def jsSubstring (s : String) (a b : Nat) : String :=
  ((s.toList.drop a).take (b - a)).asString

/-- The message preview rendered for each notification in the list:

```
notification.message.length > 80
  ? `$\x7bnotification.message.substring(0, 80)\x7d...`
  : notification.message
```
-/
def messagePreview (msg : String) : String :=
  if msg.length > 80 then jsSubstring msg 0 80 ++ "..." else msg

/-! ## Creation-form check-interval field (`src/frontend/src/pages/Monitors.jsx`)

The form relies on the browser's native constraint validation.  The
interval field is `<input type="number" min="60" max="86400">` with no
`required` attribute and the default `step` of 1, inside a form without
`noValidate`, so at submit time the browser admits exactly: an empty
field (no `required` constraint), or an in-step numeric value within
`[min, max]`.  We model the sanitized field value as `Option Int`
(`none` = empty) and the two sides of the gate below. -/

/-- Native constraint validation of the interval field: an empty value
raises no violation (the field is not `required`); a numeric value must
satisfy `min="60"` and `max="86400"`. -/
def intervalFieldValid : Option Int → Bool
  | none => true
  | some v => 60 ≤ v && v ≤ 86400

/-- The `check_interval` value `handleCreateMonitor` submits, produced
by `parseInt(e.target.value)` in the field's `onChange`: `parseInt("")`
is `NaN` (modelled `none`; `JSON.stringify` serializes it as `null`). -/
def submittedCheckInterval : Option Int → Option Int
  | none => none
  | some v => some v

/-! ## Change Detector (spec §4.4) -/

/-- Modelled from the spec: the backend Change Detector
(`detect(monitor, observedValue) → Unchanged | Changed`) is not under
`src/`; only the frontend is.  Result of a detection, from §4.4. -/
inductive DetectResult
  | unchangedR
  | changedR (oldV newV diffSummary : String)
deriving DecidableEq, Repr

/-- Value of a digit sequence read in base 10. -/
def digitsVal (ds : List Char) : Nat :=
  ds.foldl (fun a c => a * 10 + (c.toNat - 48)) 0

/-- Modelled from the spec: strip currency/grouping formatting
(everything but digits, the decimal point and a sign) and parse the
remainder as a decimal number, returned as mantissa and number of
fractional digits (`"$1,200.00"` ↦ `(120000, 2)`). -/
def parsePriceNum (s : String) : Option (Int × Nat) :=
  let cs := s.toList.filter (fun c => c.isDigit || c == '.' || c == '-')
  let (neg, rest) :=
    match cs with
    | '-' :: t => (true, t)
    | _ => (false, cs)
  let sign : Int := if neg then -1 else 1
  let ip := rest.takeWhile (fun c => c != '.')
  match rest.dropWhile (fun c => c != '.') with
  | [] =>
      if ip.length > 0 && ip.all Char.isDigit then
        some (sign * (digitsVal ip : Int), 0)
      else none
  | _ :: fp =>
      if (ip.length + fp.length > 0) && ip.all Char.isDigit
          && fp.all Char.isDigit then
        some (sign * (digitsVal (ip ++ fp) : Int), fp.length)
      else none

/-- Modelled from the spec: numeric equality of two price strings —
both parse as numbers and denote the same value. -/
def priceNumEq (a b : String) : Bool :=
  match parsePriceNum a, parsePriceNum b with
  | some (m1, e1), some (m2, e2) =>
      m1 * (10 : Int) ^ e2 == m2 * (10 : Int) ^ e1
  | _, _ => false

/-- Modelled from the spec: per-strategy equality rule of §4.4 — exact
string equality after normalization, except for `price`, where equality
is numeric; two values that both fail the number parse fall back to
exact string equality. -/
def valuesEqual (strategy : MonitorType) (a b : String) : Bool :=
  match strategy with
  | .price =>
      match parsePriceNum a, parsePriceNum b with
      | some _, some _ => priceNumEq a b
      | _, _ => a == b
  | _ => a == b

/-- Modelled from the spec: the §4.4 diff summary — a short
human-readable old→new string capped in length. -/
def diffSummary (oldV newV : String) : String :=
  jsSubstring (oldV ++ " -> " ++ newV) 0 100

/-- Modelled from the spec: `detect(monitor, observedValue)` of §4.4.
A first-ever observation (no prior `current_value`) is a new baseline
and not a change; otherwise the per-strategy equality rule decides. -/
def detect (strategy : MonitorType) (current_value : Option String)
    (observed : String) : DetectResult :=
  match current_value with
  | none => .unchangedR
  | some prev =>
      if valuesEqual strategy prev observed then .unchangedR
      else .changedR prev observed (diffSummary prev observed)

/-! ## Store-operation sequences (for the pagination-total invariant) -/

/-- One add/remove store operation, for stating the pagination-total
invariant over arbitrary operation sequences. -/
inductive StoreOp
  | addSum (x : Summary)
  | rmSum (id : String)
  | addMon (m : Monitor)
  | rmMon (id : String)
  | addNote (n : Notification)
  | rmNote (id : String)

/-- Run one store operation. -/
def applyOp : StoreOp → AppState → AppState
  | .addSum x, s => addSummary x s
  | .rmSum id, s => removeSummary id s
  | .addMon m, s => addMonitor m s
  | .rmMon id, s => removeMonitor id s
  | .addNote n, s => addNotification n s
  | .rmNote id, s => removeNotification id s

/-- Run a sequence of store operations, oldest first. -/
def applyOps (ops : List StoreOp) (s : AppState) : AppState :=
  ops.foldl (fun st op => applyOp op st) s

/-- All three pagination total counters are non-negative. -/
def totalsNonneg (s : AppState) : Prop :=
  0 ≤ s.summaries.pagination.total ∧
  0 ≤ s.monitors.pagination.total ∧
  0 ≤ s.notifications.pagination.total

instance (s : AppState) : Decidable (totalsNonneg s) := by
  unfold totalsNonneg; infer_instance

/-! ## Theorems -/

/-- C3: Given previous value `"$1,200.00"` and new observed value
`"1200"` under strategy `price`, the Change Detector returns
`Unchanged`: price equality is numeric, so values differing only in
currency/grouping formatting are equal and produce no change report. -/
theorem detect_price_formatting_unchanged :
    detect .price (some "$1,200.00") "1200" = .unchangedR ∧
    priceNumEq "$1,200.00" "1200" = true ∧
    ∀ a b, priceNumEq a b = true →
      detect .price (some a) b = .unchangedR := by
  refine ⟨by decide, by decide, ?_⟩
  intro a b h
  have hva : valuesEqual .price a b = true := by
    unfold valuesEqual
    cases ha : parsePriceNum a <;> cases hb : parsePriceNum b <;>
      simp only [priceNumEq, ha, hb] at h ⊢ <;> simp_all
  simp [detect, hva]

/-- Witness for C3's numeric-equality rule at another formatting pair. -/
theorem detect_price_formatting_unchanged_witness :
    priceNumEq "$5" "5.00" = true ∧
    detect .price (some "$5") "5.00" = .unchangedR :=
  ⟨by decide,
   detect_price_formatting_unchanged.2.2 "$5" "5.00" (by decide)⟩

/-- C5: `sendMessage` on an absent socket or one not in the `OPEN`
ready-state raises nothing and transmits nothing (the result is the
silent `console.warn` drop; nothing is queued); only on an `OPEN` socket
is the message serialized with `JSON.stringify` and sent. -/
theorem send_message_open_gate (ws : Option WSocket) (m : Json) :
    (ws = none → sendMessage ws m = .droppedNotConnected) ∧
    (∀ w, ws = some w → w.readyState ≠ wsOPEN →
        sendMessage ws m = .droppedNotConnected) ∧
    (∀ w, ws = some w → w.readyState = wsOPEN →
        sendMessage ws m = .sent m.stringify) := by
  refine ⟨?_, ?_, ?_⟩
  · rintro rfl; rfl
  · rintro w rfl hne
    simp [sendMessage, hne]
  · rintro w rfl hopen
    simp [sendMessage, hopen]

/-- Witness for C5: a missing socket and a `CLOSED` socket both drop a
concrete message; an `OPEN` socket sends its serialization. -/
theorem send_message_open_gate_witness :
    sendMessage none (Json.str "ping") = .droppedNotConnected ∧
    sendMessage (some ⟨wsCLOSED⟩) (Json.str "ping") = .droppedNotConnected ∧
    sendMessage (some ⟨wsOPEN⟩) (Json.str "ping")
      = .sent (Json.str "ping").stringify :=
  ⟨(send_message_open_gate none (Json.str "ping")).1 rfl,
   (send_message_open_gate (some ⟨wsCLOSED⟩) (Json.str "ping")).2.1
     ⟨wsCLOSED⟩ rfl (by decide),
   (send_message_open_gate (some ⟨wsOPEN⟩) (Json.str "ping")).2.2
     ⟨wsOPEN⟩ rfl rfl⟩

/-- Counterexample for C7: an empty interval field passes the form's
native validation (the field has `min`/`max` but no `required`), yet the
submitted `check_interval` is `parseInt("") = NaN` — not a number ≥ 60,
so the claim that every submission carries an interval in
`[60, 86400]` fails. -/
theorem empty_interval_field_submits_no_number :
    intervalFieldValid none = true ∧
    submittedCheckInterval none = none ∧
    ¬ ∃ v : Int, submittedCheckInterval none = some v ∧
        60 ≤ v ∧ v ≤ 86400 := by
  refine ⟨rfl, rfl, ?_⟩
  rintro ⟨v, hv, -⟩
  simp [submittedCheckInterval] at hv

/-- C7 (amended): every creation-form submission whose interval field
holds a numeric value has `check_interval` within the configured
`[60, 86400]` bounds; only an empty field escapes the range check, and
it submits no number at all. -/
theorem check_interval_bounds_when_numeric (f : Option Int) (v : Int)
    (hvalid : intervalFieldValid f = true)
    (hsub : submittedCheckInterval f = some v) :
    60 ≤ v ∧ v ≤ 86400 := by
  cases f with
  | none => simp [submittedCheckInterval] at hsub
  | some w =>
      simp only [submittedCheckInterval, Option.some.injEq] at hsub
      subst hsub
      simpa [intervalFieldValid] using hvalid

/-- Witness for C7's amended theorem at a concrete in-range value. -/
theorem check_interval_bounds_when_numeric_witness :
    intervalFieldValid (some 300) = true ∧
    submittedCheckInterval (some 300) = some 300 ∧
    (60 ≤ (300 : Int) ∧ (300 : Int) ≤ 86400) :=
  ⟨by decide, rfl,
   check_interval_bounds_when_numeric (some 300) 300 (by decide) rfl⟩

/-- C8: the notification list's message preview is length-capped: a
message longer than 80 characters is previewed as exactly its first 80
characters followed by `"..."`; otherwise the preview is the full
message. -/
theorem notification_preview_capped (msg : String) :
    (msg.length > 80 →
        messagePreview msg = (msg.toList.take 80).asString ++ "...") ∧
    (msg.length ≤ 80 → messagePreview msg = msg) := by
  constructor
  · intro h
    simp [messagePreview, jsSubstring, h]
  · intro h
    have h' : ¬ msg.length > 80 := by omega
    simp [messagePreview, h']

/-- Witness for C8: an 85-character message is cut at 80 characters plus
an ellipsis; a short message is shown whole. -/
theorem notification_preview_capped_witness :
    (String.mk (List.replicate 85 'a')).length > 80 ∧
    messagePreview (String.mk (List.replicate 85 'a'))
      = ((String.mk (List.replicate 85 'a')).toList.take 80).asString ++ "..." ∧
    ("short".length ≤ 80 ∧ messagePreview "short" = "short") :=
  ⟨by decide,
   (notification_preview_capped (String.mk (List.replicate 85 'a'))).1
     (by decide),
   by decide,
   (notification_preview_capped "short").2 (by decide)⟩

/-- C10: the pagination totals of summaries, monitors and notifications
never go negative: every remove clamps with `Math.max(0, total - 1)`, so
any sequence of add/remove store operations started from non-negative
totals — including removes when a total is already 0 — keeps all three
totals ≥ 0. -/
theorem pagination_totals_stay_nonneg (ops : List StoreOp) (s : AppState)
    (h : totalsNonneg s) : totalsNonneg (applyOps ops s) := by
  induction ops generalizing s with
  | nil => exact h
  | cons op rest ih =>
      refine ih (applyOp op s) ?_
      obtain ⟨h1, h2, h3⟩ := h
      cases op <;>
        simp_all [applyOp, addSummary, removeSummary, addMonitor,
          removeMonitor, addNotification, removeNotification,
          totalsNonneg] <;>
        omega

/-- Witness for C10: from the initial store (all totals 0), removing one
item of each kind — each remove hitting a total that is already 0 —
leaves all totals non-negative. -/
theorem pagination_totals_stay_nonneg_witness :
    totalsNonneg initAppState ∧
    totalsNonneg
      (applyOps [.rmMon "m1", .rmNote "n1", .rmSum "s1"] initAppState) :=
  ⟨by decide,
   pagination_totals_stay_nonneg [.rmMon "m1", .rmNote "n1", .rmSum "s1"]
     initAppState (by decide)⟩

/-! ### Sample data for witnesses -/

/-- A concrete monitor. -/
def sampleMonitor : Monitor :=
  { id := "m1", name := "Demo", url := "https://example.com",
    monitor_type := .price, css_selector := none, xpath_selector := none,
    current_value := some "100", previous_value := none,
    check_interval := 300, is_active := true, notification_enabled := true,
    last_checked := some "2024-01-01T00:00:00Z", last_changed := none,
    created_at := "2024-01-01T00:00:00Z", updated_at := none,
    metadata := none }

/-- A concrete unread notification. -/
def sampleNotification : Notification :=
  { id := "n1", title := "Monitor Alert", message := "value changed",
    notification_type := .info, source := some "m1",
    source_type := some "monitor", is_read := false, is_sent := false,
    priority := .normal, created_at := "2024-01-01T00:00:00Z",
    read_at := none, sent_at := none, data := none }

/-- A concrete store holding one monitor and one notification. -/
def sampleState : AppState :=
  addMonitor sampleMonitor (addNotification sampleNotification initAppState)

/-- C1: handling a `monitor_update` message updates exactly the monitor
whose id equals the payload's monitor id, setting its `current_value`
and `last_checked` to the payload's values and setting `last_changed`
(to the payload's `last_checked`) if and only if the payload reports a
change; on no change the stored `last_changed` is untouched, and every
other monitor, and every other field of the matching one, is unchanged. -/
theorem monitor_update_applies_exactly (msg : MonitorUpdateMsg)
    (s : AppState) (i : Nat) (hi : i < s.monitors.items.length)
    (hj : i < (handleMonitorUpdate msg s).monitors.items.length) :
    (handleMonitorUpdate msg s).monitors.items.length
      = s.monitors.items.length ∧
    (handleMonitorUpdate msg s).monitors.items[i] =
      (if (s.monitors.items[i]).id = msg.monitor_id then
        { s.monitors.items[i] with
            current_value := some msg.current_value
            last_checked := some msg.last_checked
            last_changed :=
              if msg.has_changed then some msg.last_checked
              else (s.monitors.items[i]).last_changed }
      else s.monitors.items[i]) := by
  constructor
  · simp [handleMonitorUpdate, updateMonitor]
  · simp only [handleMonitorUpdate, updateMonitor, List.getElem_map]
    by_cases h : (s.monitors.items[i]).id = msg.monitor_id
    · rcases Bool.eq_false_or_eq_true msg.has_changed with hb | hb <;>
        simp [h, hb, MonitorPatch.applyTo]
    · simp [h]

/-- Witness for C1 at a concrete store, message and index. -/
theorem monitor_update_applies_exactly_witness :
    0 < sampleState.monitors.items.length ∧
    0 < (handleMonitorUpdate ⟨"m1", "150", "t2", true⟩
          sampleState).monitors.items.length ∧
    (handleMonitorUpdate ⟨"m1", "150", "t2", true⟩
        sampleState).monitors.items.length
      = sampleState.monitors.items.length :=
  ⟨by decide, by decide,
   (monitor_update_applies_exactly ⟨"m1", "150", "t2", true⟩ sampleState 0
     (by decide) (by decide)).1⟩

/-- C2: `markNotificationRead(id)` changes only the `is_read` flag (to
true) and the `read_at` timestamp of the matching notification; every
other field of it, every other notification, the list's length and
order, the pagination and the rest of the store are unchanged. -/
theorem mark_notification_read_frame (id now : String) (s : AppState)
    (i : Nat) (hi : i < s.notifications.items.length)
    (hj : i < (markNotificationRead id now s).notifications.items.length) :
    (markNotificationRead id now s).ui = s.ui ∧
    (markNotificationRead id now s).summaries = s.summaries ∧
    (markNotificationRead id now s).monitors = s.monitors ∧
    (markNotificationRead id now s).currentSummary = s.currentSummary ∧
    (markNotificationRead id now s).stats = s.stats ∧
    (markNotificationRead id now s).notifications.pagination
      = s.notifications.pagination ∧
    (markNotificationRead id now s).notifications.items.length
      = s.notifications.items.length ∧
    ((markNotificationRead id now s).notifications.items[i]).id
      = (s.notifications.items[i]).id ∧
    ((markNotificationRead id now s).notifications.items[i]).title
      = (s.notifications.items[i]).title ∧
    ((markNotificationRead id now s).notifications.items[i]).message
      = (s.notifications.items[i]).message ∧
    ((markNotificationRead id now s).notifications.items[i]).notification_type
      = (s.notifications.items[i]).notification_type ∧
    ((markNotificationRead id now s).notifications.items[i]).priority
      = (s.notifications.items[i]).priority ∧
    ((markNotificationRead id now s).notifications.items[i]).source
      = (s.notifications.items[i]).source ∧
    ((markNotificationRead id now s).notifications.items[i]).source_type
      = (s.notifications.items[i]).source_type ∧
    ((markNotificationRead id now s).notifications.items[i]).is_sent
      = (s.notifications.items[i]).is_sent ∧
    ((markNotificationRead id now s).notifications.items[i]).sent_at
      = (s.notifications.items[i]).sent_at ∧
    ((markNotificationRead id now s).notifications.items[i]).created_at
      = (s.notifications.items[i]).created_at ∧
    ((markNotificationRead id now s).notifications.items[i]).data
      = (s.notifications.items[i]).data ∧
    ((s.notifications.items[i]).id = id →
        ((markNotificationRead id now s).notifications.items[i]).is_read
            = true ∧
        ((markNotificationRead id now s).notifications.items[i]).read_at
            = some now) ∧
    ((s.notifications.items[i]).id ≠ id →
        (markNotificationRead id now s).notifications.items[i]
          = s.notifications.items[i]) := by
  have key : (markNotificationRead id now s).notifications.items[i] =
      (if (s.notifications.items[i]).id = id
       then { s.notifications.items[i] with
                is_read := true, read_at := some now }
       else s.notifications.items[i]) := by
    simp only [markNotificationRead, List.getElem_map]
    by_cases h : (s.notifications.items[i]).id = id <;> simp [h]
  refine ⟨rfl, rfl, rfl, rfl, rfl, rfl,
    by simp [markNotificationRead], ?_⟩
  rw [key]
  by_cases h : (s.notifications.items[i]).id = id <;> simp [h]

/-- Witness for C2 at a concrete store, id and index. -/
theorem mark_notification_read_frame_witness :
    0 < sampleState.notifications.items.length ∧
    0 < (markNotificationRead "n1" "2024-01-02T00:00:00Z"
          sampleState).notifications.items.length ∧
    (markNotificationRead "n1" "2024-01-02T00:00:00Z"
        sampleState).notifications.items.length
      = sampleState.notifications.items.length :=
  ⟨by decide, by decide,
   (mark_notification_read_frame "n1" "2024-01-02T00:00:00Z" sampleState 0
     (by decide) (by decide)).2.2.2.2.2.2.1⟩

/-- C6: after `markAllNotificationsRead()`, every notification is read
with a non-null `read_at`; count, order, ids and all other fields are
unchanged; and a second application again leaves every notification
read. -/
theorem mark_all_notifications_read_correct (now1 now2 : String)
    (s : AppState) (i : Nat) (hi : i < s.notifications.items.length)
    (hj : i < (markAllNotificationsRead now1 s).notifications.items.length)
    (hk : i < (markAllNotificationsRead now2
        (markAllNotificationsRead now1 s)).notifications.items.length) :
    (markAllNotificationsRead now1 s).notifications.items.length
      = s.notifications.items.length ∧
    (markAllNotificationsRead now1 s).notifications.pagination
      = s.notifications.pagination ∧
    ((markAllNotificationsRead now1 s).notifications.items[i]).is_read
      = true ∧
    ((markAllNotificationsRead now1 s).notifications.items[i]).read_at
      = some now1 ∧
    ((markAllNotificationsRead now1 s).notifications.items[i]).read_at
      ≠ none ∧
    ((markAllNotificationsRead now1 s).notifications.items[i]).id
      = (s.notifications.items[i]).id ∧
    ((markAllNotificationsRead now1 s).notifications.items[i]).title
      = (s.notifications.items[i]).title ∧
    ((markAllNotificationsRead now1 s).notifications.items[i]).message
      = (s.notifications.items[i]).message ∧
    ((markAllNotificationsRead now1 s).notifications.items[i]).notification_type
      = (s.notifications.items[i]).notification_type ∧
    ((markAllNotificationsRead now1 s).notifications.items[i]).priority
      = (s.notifications.items[i]).priority ∧
    ((markAllNotificationsRead now1 s).notifications.items[i]).source
      = (s.notifications.items[i]).source ∧
    ((markAllNotificationsRead now1 s).notifications.items[i]).source_type
      = (s.notifications.items[i]).source_type ∧
    ((markAllNotificationsRead now1 s).notifications.items[i]).is_sent
      = (s.notifications.items[i]).is_sent ∧
    ((markAllNotificationsRead now1 s).notifications.items[i]).sent_at
      = (s.notifications.items[i]).sent_at ∧
    ((markAllNotificationsRead now1 s).notifications.items[i]).created_at
      = (s.notifications.items[i]).created_at ∧
    ((markAllNotificationsRead now1 s).notifications.items[i]).data
      = (s.notifications.items[i]).data ∧
    ((markAllNotificationsRead now2
        (markAllNotificationsRead now1 s)).notifications.items[i]).is_read
      = true := by
  have key : (markAllNotificationsRead now1 s).notifications.items[i] =
      { s.notifications.items[i] with
          is_read := true, read_at := some now1 } := by
    simp [markAllNotificationsRead, List.getElem_map]
  have key2 : (markAllNotificationsRead now2
      (markAllNotificationsRead now1 s)).notifications.items[i] =
      { (markAllNotificationsRead now1 s).notifications.items[i] with
          is_read := true, read_at := some now2 } := by
    simp [markAllNotificationsRead, List.getElem_map]
  refine ⟨by simp [markAllNotificationsRead], rfl, ?_⟩
  rw [key, key2]
  simp

/-- Witness for C6 at a concrete store and index. -/
theorem mark_all_notifications_read_correct_witness :
    0 < sampleState.notifications.items.length ∧
    0 < (markAllNotificationsRead "T1" sampleState).notifications.items.length ∧
    0 < (markAllNotificationsRead "T2"
          (markAllNotificationsRead "T1" sampleState)).notifications.items.length ∧
    ((markAllNotificationsRead "T1" sampleState).notifications.items.length
      = sampleState.notifications.items.length) :=
  ⟨by decide, by decide, by decide,
   (mark_all_notifications_read_correct "T1" "T2" sampleState 0
     (by decide) (by decide) (by decide)).1⟩

/-- C9: `updateMonitor(id, updates)` merges the update fields over
exactly the monitor whose id matches; every other monitor, the list's
length and order, the monitors pagination and the rest of the store are
unchanged; and if no stored monitor has that id the store is left
entirely unchanged. -/
theorem update_monitor_frame (id : String) (p : MonitorPatch)
    (s : AppState) :
    (updateMonitor id p s).ui = s.ui ∧
    (updateMonitor id p s).summaries = s.summaries ∧
    (updateMonitor id p s).notifications = s.notifications ∧
    (updateMonitor id p s).currentSummary = s.currentSummary ∧
    (updateMonitor id p s).stats = s.stats ∧
    (updateMonitor id p s).monitors.pagination = s.monitors.pagination ∧
    (updateMonitor id p s).monitors.loading = s.monitors.loading ∧
    (updateMonitor id p s).monitors.error = s.monitors.error ∧
    (updateMonitor id p s).monitors.items.length
      = s.monitors.items.length ∧
    (∀ i, ∀ hi : i < s.monitors.items.length,
      ∀ hj : i < (updateMonitor id p s).monitors.items.length,
      (updateMonitor id p s).monitors.items[i] =
        (if (s.monitors.items[i]).id = id
         then p.applyTo (s.monitors.items[i])
         else s.monitors.items[i])) ∧
    ((∀ m ∈ s.monitors.items, m.id ≠ id) → updateMonitor id p s = s) := by
  refine ⟨rfl, rfl, rfl, rfl, rfl, rfl, rfl, rfl,
    by simp [updateMonitor], ?_, ?_⟩
  · intro i hi hj
    simp only [updateMonitor, List.getElem_map]
    by_cases h : (s.monitors.items[i]).id = id <;> simp [h]
  · intro hnone
    have hitems : s.monitors.items.map
        (fun m => if m.id == id then p.applyTo m else m)
        = s.monitors.items := by
      have hcongr : s.monitors.items.map
          (fun m => if m.id == id then p.applyTo m else m)
          = s.monitors.items.map (fun m => m) := by
        apply List.map_congr_left
        intro m hm
        simp [hnone m hm]
      rw [hcongr, List.map_id']
    unfold updateMonitor
    rw [hitems]

/-- Witness for C9: an id matching no stored monitor leaves the sample
store untouched. -/
theorem update_monitor_frame_witness :
    (∀ m ∈ sampleState.monitors.items, m.id ≠ "absent") ∧
    updateMonitor "absent" { name := some "renamed" } sampleState
      = sampleState :=
  ⟨by decide,
   (update_monitor_frame "absent" { name := some "renamed" }
      sampleState).2.2.2.2.2.2.2.2.2.2 (by decide)⟩

/-! ### Reconnection-lifecycle lemmas -/

/-- Clearing the ref'd timeout nulls the ref. -/
theorem clearReconnectTimer_ref (s : WSClient) :
    (clearReconnectTimer s).timerRef = none := by
  unfold clearReconnectTimer
  cases href : s.timerRef <;> simp [href]

/-- Clearing never adds timers: a timer live afterwards was live
before. -/
theorem clearReconnectTimer_mem {s : WSClient} {tm : ReconnTimer}
    (h : tm ∈ (clearReconnectTimer s).timers) : tm ∈ s.timers := by
  unfold clearReconnectTimer at h
  cases href : s.timerRef with
  | none => simpa [href] using h
  | some t =>
      rw [href] at h
      exact List.mem_of_mem_filter h

/-- Clearing does not touch the timeout-id counter. -/
theorem clearReconnectTimer_nextId (s : WSClient) :
    (clearReconnectTimer s).nextId = s.nextId := by
  unfold clearReconnectTimer
  cases href : s.timerRef <;> simp [href]

/-- Clearing the ref'd timeout cancels it: no timer with its id stays
live. -/
theorem clearReconnectTimer_cancels {s : WSClient} {t : Nat}
    (h : s.timerRef = some t) :
    ∀ tm ∈ (clearReconnectTimer s).timers, tm.tid ≠ t := by
  intro tm hm
  unfold clearReconnectTimer at hm
  rw [h] at hm
  simp only [List.mem_filter, bne_iff_ne, ne_eq] at hm
  exact hm.2

/-- Every reachable state of the hook satisfies the lifecycle
invariant. -/
theorem wsReachable_inv {c : WSClient} (h : WSReachable c) : WSInv c := by
  induction h with
  | init =>
      intro tm hm
      simp [initClient] at hm
  | @step s s' hr hstep ih =>
      cases hstep with
      | mount hsock =>
          intro tm hm
          exact ih tm hm
      | opened hsock =>
          intro tm hm
          have hm' : tm ∈ s.timers :=
            clearReconnectTimer_mem (s := s) hm
          have hi := ih tm hm'
          exact ⟨hi.1, by
            have := clearReconnectTimer_nextId s
            simp only [onOpen]
            omega⟩
      | closed hsock =>
          intro tm hm
          rcases List.mem_cons.mp hm with heq | hmem
          · subst heq
            exact ⟨rfl, Nat.lt_succ_self _⟩
          · have hi := ih tm hmem
            exact ⟨hi.1, Nat.lt_succ_of_lt hi.2⟩
      | closeDetached hpc =>
          intro tm hm
          rcases List.mem_cons.mp hm with heq | hmem
          · subst heq
            exact ⟨rfl, Nat.lt_succ_self _⟩
          · have hi := ih tm hmem
            exact ⟨hi.1, Nat.lt_succ_of_lt hi.2⟩
      | errored =>
          intro tm hm
          exact ih tm hm
      | fired t hmem =>
          intro tm hm
          have hm' : tm ∈ s.timers :=
            List.mem_of_mem_filter hm
          exact ih tm hm'
      | disc =>
          intro tm hm
          have hm' : tm ∈ s.timers :=
            clearReconnectTimer_mem (s := s) hm
          have hi := ih tm hm'
          exact ⟨hi.1, by
            have := clearReconnectTimer_nextId s
            simp only [disconnectClient]
            omega⟩

/-- Counterexample for C4: after an explicit `disconnect()` (state
`discState`, whose pending reconnection timeout `disconnect()` did
cancel — no timer is live there), the close event of the socket
`disconnect()` closed is still pending and is a legal next step; its
delivery schedules a live 3000 ms reconnection timeout, whose fire step
— a further reconnection attempt — is enabled and produces a fresh
connecting socket.  So "disconnect() cancels any pending reconnection
so no further attempt fires" is false of the code. -/
theorem disconnect_close_still_reconnects :
    WSReachable discState ∧
    discState.timers = [] ∧
    discState.timerRef = none ∧
    0 < discState.pendingClose ∧
    WSStep discState discClosedState ∧
    discClosedState.timers = [⟨0, 3000⟩] ∧
    WSStep discClosedState (fireTimer 0 discClosedState) ∧
    (fireTimer 0 discClosedState).sock = some .connectingP := by
  have h1 : WSReachable (connectClient initClient) :=
    WSReachable.step WSReachable.init (WSStep.mount initClient rfl)
  have h2 : WSReachable (onOpen (connectClient initClient)) :=
    WSReachable.step h1 (WSStep.opened (connectClient initClient) rfl)
  have h3 : WSReachable discState :=
    WSReachable.step h2 (WSStep.disc (onOpen (connectClient initClient)))
  exact ⟨h3, by decide, by decide, by decide,
    WSStep.closeDetached discState (by decide),
    by decide,
    WSStep.fired discClosedState 0 ⟨⟨0, 3000⟩, by decide, rfl⟩,
    by decide⟩

/-- C4 (amended): every live reconnection timeout in a reachable state
carries the fixed 3 s delay; every close event — the held socket's, or
the one still delivered for a socket `disconnect()` closed — schedules
exactly one fresh reconnection timeout, distinct from all live ones; a
successful reopen cancels the ref'd pending timeout and nulls the ref;
`disconnect()` cancels the timeout pending at the moment of the call
and nulls the ref, but closing a connecting/open socket leaves that
socket's close event pending, which will schedule a fresh reconnection
(the further attempt the original claim denied). -/
theorem websocket_reconnect_contract_amended (s : WSClient)
    (hr : WSReachable s) :
    reconnectDelayMs = 3000 ∧
    (∀ tm ∈ s.timers, tm.delayMs = reconnectDelayMs) ∧
    ((onClose s).timers = ⟨s.nextId, reconnectDelayMs⟩ :: s.timers ∧
     (onClose s).timerRef = some s.nextId ∧
     ∀ tm ∈ s.timers, tm.tid ≠ s.nextId) ∧
    (0 < s.pendingClose →
        (detachedClose s).timers
          = ⟨s.nextId, reconnectDelayMs⟩ :: s.timers ∧
        (detachedClose s).timerRef = some s.nextId) ∧
    ((onOpen s).timerRef = none ∧
     ∀ t, s.timerRef = some t →
        ∀ tm ∈ (onOpen s).timers, tm.tid ≠ t) ∧
    ((disconnectClient s).timerRef = none ∧
     (∀ t, s.timerRef = some t →
        ∀ tm ∈ (disconnectClient s).timers, tm.tid ≠ t) ∧
     ((s.sock = some .connectingP ∨ s.sock = some .openP) →
        (disconnectClient s).pendingClose = s.pendingClose + 1)) := by
  have inv := wsReachable_inv hr
  refine ⟨rfl, fun tm hm => (inv tm hm).1, ⟨rfl, rfl, ?_⟩,
    fun _ => ⟨rfl, rfl⟩, ⟨?_, ?_⟩, ⟨?_, ?_, ?_⟩⟩
  · intro tm hm
    exact Nat.ne_of_lt (inv tm hm).2
  · exact clearReconnectTimer_ref s
  · intro t ht tm hm
    exact clearReconnectTimer_cancels ht tm hm
  · exact clearReconnectTimer_ref s
  · intro t ht tm hm
    exact clearReconnectTimer_cancels ht tm hm
  · intro h
    simp [disconnectClient, h]

/-- Witness for C4's amended theorem: the reconnect after `disconnect()`
exercised concretely — `discState` has a pending close whose delivery
schedules one fresh 3 s timeout; `discClosedState`'s ref'd timeout is
cancelled by a reopen; and the disconnect from the open client left one
close pending. -/
theorem websocket_reconnect_contract_amended_witness :
    (0 < discState.pendingClose ∧
     (detachedClose discState).timers
       = ⟨discState.nextId, reconnectDelayMs⟩ :: discState.timers) ∧
    (discClosedState.timerRef = some 0 ∧
     ∀ tm ∈ (onOpen discClosedState).timers, tm.tid ≠ 0) ∧
    ((onOpen (connectClient initClient)).sock = some .openP ∧
     discState.pendingClose
       = (onOpen (connectClient initClient)).pendingClose + 1) := by
  have h1 : WSReachable (connectClient initClient) :=
    WSReachable.step WSReachable.init (WSStep.mount initClient rfl)
  have h2 : WSReachable (onOpen (connectClient initClient)) :=
    WSReachable.step h1 (WSStep.opened (connectClient initClient) rfl)
  have h3 : WSReachable discState :=
    WSReachable.step h2 (WSStep.disc (onOpen (connectClient initClient)))
  have h4 : WSReachable discClosedState :=
    WSReachable.step h3 (WSStep.closeDetached discState (by decide))
  refine ⟨⟨by decide, ?_⟩, ⟨by decide, ?_⟩, ⟨by decide, ?_⟩⟩
  · exact ((websocket_reconnect_contract_amended discState h3).2.2.2.1
      (by decide)).1
  · exact (websocket_reconnect_contract_amended discClosedState
      h4).2.2.2.2.1.2 0 (by decide)
  · exact (websocket_reconnect_contract_amended
      (onOpen (connectClient initClient)) h2).2.2.2.2.2.2.2
      (Or.inr rfl)

end Clarifi
